import Mathlib

set_option maxRecDepth 100000
set_option maxHeartbeats 4000000

/-!
Verification of the rate-card conversion pipeline
(`experiments/rate-card-conversion/app`): a shallow embedding of
`rag.py`, `mapping.py`, `validators.py`, `pipeline.py` and
`agentic_orchestrator.py`, followed by theorems about the embedded code.

Modelling conventions:
* Cell values of the input table are `PyValue`: `None`, float `NaN`
  (pandas' missing-value marker), strings, and finite numbers.
* Similarity scores are exact fractions `Frac` (numerator/denominator,
  not necessarily in lowest terms; all comparisons are by cross
  multiplication, so normalisation is irrelevant).  A confidence value
  `round(score, 3)` is stored as its integer number of thousandths:
  `933` stands for the Python float `0.933`, the acceptance threshold
  `0.62` is `620`, and the reporting threshold `0.80` is `800`.  For the
  scores arising here the exact rational round-half-even agrees with
  Python's `round` on the corresponding double.
* Python floats produced by `float(...)` are `PFloat`: a finite decimal
  fraction `DecFloat` (value `num / den`, `den` a power of ten), `nan`,
  `inf` or `-inf`.  The rounding of decimal literals to binary doubles
  is abstracted away; every concrete input below is small and exact.
* Exceptions (pydantic `ValidationError`, `int()` conversion errors) are
  modelled with `Except String`.
* `difflib.SequenceMatcher.ratio()` is embedded exactly for the short,
  junk-free strings that occur here (autojunk only activates for strings
  of length >= 200, which never happens for column headers or synonyms).
* `pd.to_datetime(value, errors="coerce").date()` is modelled for the
  ISO `YYYY-MM-DD` string format used throughout the repository; any
  other non-empty string coerces to `NaT` (`DateLike.natD`), exactly as
  pandas coerces unparsable strings. Numeric values are interpreted as
  nanosecond epoch offsets, whose `.date()` is 1970-01-01 for every
  magnitude below one day (the only values this development evaluates).
-/

/-- A raw cell value of the input table (the values pandas hands to the
pipeline); numbers carry an exact decimal value `num / den`. -/
inductive PyValue where
  | vNone
  | vNaN
  | vStr (s : String)
  | vNum (num : Int) (den : Nat)
deriving DecidableEq

/-- A finite Python float, as the exact decimal value `num / den`
(`den` a positive power of ten; not necessarily in lowest terms). -/
structure DecFloat where
  num : Int
  den : Nat
deriving DecidableEq

/-- A Python float as produced by `float(...)`. -/
inductive PFloat where
  | fin (f : DecFloat)
  | nan
  | inf
  | ninf
deriving DecidableEq

/-- A calendar date (`datetime.date`). -/
structure PDate where
  year : Nat
  month : Nat
  day : Nat
deriving DecidableEq

/-- The result of `to_date_or_none`: `None`, pandas `NaT`, or a date. -/
inductive DateLike where
  | noneD
  | natD
  | dateD (d : PDate)
deriving DecidableEq

/-- Python truthiness of a raw cell value (`bool(v)`): `None`, empty
strings and zero are falsy; `NaN` is truthy. -/
def pyTruthy : PyValue → Bool
  | .vNone => false
  | .vNaN => true
  | .vStr s => s != ""
  | .vNum n _ => n != 0

/-- `v < 0` in Python float comparison semantics (`NaN < 0` is `False`). -/
def pfNeg : PFloat → Bool
  | .fin f => decide (f.num < 0)
  | .nan => false
  | .inf => false
  | .ninf => true

/-- `v >= 0` in Python float comparison semantics (`NaN >= 0` is `False`). -/
def pfGe0 : PFloat → Bool
  | .fin f => decide (0 ≤ f.num)
  | .nan => false
  | .inf => true
  | .ninf => false

/-- `v <= 100` in Python float comparison semantics. -/
def pfLe100 : PFloat → Bool
  | .fin f => decide (f.num ≤ 100 * (f.den : Int))
  | .nan => false
  | .inf => false
  | .ninf => true

/-- Strict lexicographic date order, `d1 < d2` (Python `date` ordering). -/
def pdateLtB (d1 d2 : PDate) : Bool :=
  decide (d1.year < d2.year) ||
  (d1.year == d2.year &&
    (decide (d1.month < d2.month) ||
     (d1.month == d2.month && decide (d1.day < d2.day))))

/-- Python dict lookup on an insertion-ordered association list. -/
def dictGet? {α : Type} (m : List (String × α)) (k : String) : Option α :=
  match m with
  | [] => none
  | (k', v) :: rest => if k' = k then some v else dictGet? rest k

/-- Python dict assignment `m[k] = v`: updates the value in place if the
key exists (keeping its position), otherwise appends the new pair. -/
def dictSet {α : Type} (m : List (String × α)) (k : String) (v : α) :
    List (String × α) :=
  match m with
  | [] => [(k, v)]
  | (k', v') :: rest =>
      if k' = k then (k, v) :: rest else (k', v') :: dictSet rest k v

/-! ## Exact score fractions -/

/-- A nonnegative similarity score as an exact fraction (denominator
positive at every use site). -/
structure Frac where
  num : Nat
  den : Nat
deriving DecidableEq

/-- Value order on score fractions, by cross multiplication. -/
def fracLt (a b : Frac) : Bool := decide (a.num * b.den < b.num * a.den)

/-- `max(a, b)` on score values (Python `max` keeps the first argument
on ties; score values, not representations, drive everything below). -/
def fracMax (a b : Frac) : Frac := if fracLt a b then b else a

/-- Round-half-even of `1000 * value`, i.e. Python's `round(value, 3)`
expressed in thousandths.  For the score fractions arising here the
exact tie-breaking agrees with Python's `round` on the nearest double. -/
def roundMille (f : Frac) : Nat :=
  let k := 1000 * f.num / f.den
  let r := 1000 * f.num % f.den
  if 2 * r < f.den then k
  else if f.den < 2 * r then k + 1
  else if k % 2 = 0 then k else k + 1

/-! ## difflib.SequenceMatcher

`SequenceMatcher(None, a, b).ratio()` with no junk predicate and strings
short enough that autojunk never kicks in (`len(b) < 200`).  In that case
`find_longest_match` returns the longest matching block, preferring the
block with the smallest start in `a`, then the smallest start in `b`
(difflib scans ending positions row by row and only replaces the stored
best on a strictly larger size, which selects exactly that block), and
`ratio` is `2*M/T` where `M` is the total size of the blocks produced by
recursively splitting around the longest match and `T = len(a)+len(b)`. -/

/-- A string as the list of its character code points (characters are
compared by code point, an equality-preserving change of
representation). -/
def strCodes (s : String) : List Nat := s.data.map Char.toNat

/-- `j2len.get(j - 1, 0)`: the length of the matching run ending at
`(i - 1, j - 1)`, stored by the previous row of the dynamic programme
(keys are unique, so list order is irrelevant). -/
def j2lenGet (m : List (Nat × Nat)) (j : Nat) : Nat :=
  match m with
  | [] => 0
  | (k, v) :: rest => if k = j then v else j2lenGet rest j

/-- One row `i` of `find_longest_match`'s dynamic programme: difflib's
`for j in b2j.get(a[i], [])` visits exactly the ascending positions `j`
of `b` whose element equals `a[i]` (scanned here as a filter over `b`);
`k = newj2len[j] = j2len.get(j-1, 0) + 1` extends the run ending at
`(i-1, j-1)`, and the best block is replaced only on a strictly larger
size, with start coordinates `(i-k+1, j-k+1, k)`. -/
def flmRow (c : Nat) (i : Nat) (j2len : List (Nat × Nat)) :
    List Nat → Nat → List (Nat × Nat) → Nat × Nat × Nat →
      List (Nat × Nat) × (Nat × Nat × Nat)
  | [], _, acc, best => (acc, best)
  | y :: ys, j, acc, best =>
      if y == c then
        let k := (if j = 0 then 0 else j2lenGet j2len (j - 1)) + 1
        flmRow c i j2len ys (j + 1) ((j, k) :: acc)
          (if best.2.2 < k then (i + 1 - k, j + 1 - k, k) else best)
      else flmRow c i j2len ys (j + 1) acc best

def flmRows (b : List Nat) :
    List Nat → Nat → List (Nat × Nat) → Nat × Nat × Nat → Nat × Nat × Nat
  | [], _, _, best => best
  | c :: as', i, j2len, best =>
      let p := flmRow c i j2len b 0 [] best
      flmRows b as' (i + 1) p.1 p.2

/-- `find_longest_match` on the (sub)strings `a` and `b`, in coordinates
relative to them: the longest matching block `(i, j, k)` as start
positions and size, ties resolved by difflib's scan order (smallest
ending row, then smallest `j`; the initial best is `(0, 0, 0)`,
difflib's `(alo, blo, 0)` in relative coordinates; the junk/popular
extension loops are vacuous here, see the section comment). -/
def findLongestMatch (a b : List Nat) : Nat × Nat × Nat :=
  flmRows b a 0 [] (0, 0, 0)

/-- Total size of the matching blocks of `get_matching_blocks`, computed
by the same recursive decomposition around the longest match; difflib's
index ranges `[alo, i)`/`[i+k, ahi)` are the `take`/`drop` sublists here.
Every recursive call strictly shrinks the total length, so the fuel
`a.length + b.length + 1` supplied by `matchSum` is never exhausted. -/
def matchSumAux : Nat → List Nat → List Nat → Nat
  | 0, _, _ => 0
  | fuel + 1, a, b =>
      let m := findLongestMatch a b
      if m.2.2 = 0 then 0
      else
        m.2.2 + matchSumAux fuel (a.take m.1) (b.take m.2.1) +
          matchSumAux fuel (a.drop (m.1 + m.2.2)) (b.drop (m.2.1 + m.2.2))

def matchSum (a b : List Nat) : Nat :=
  matchSumAux (a.length + b.length + 1) a b

/-- `SequenceMatcher(None, a, b).ratio() = 2*M/T` (and `1.0` when both
strings are empty). -/
def seqRatio (a b : List Nat) : Frac :=
  let t := a.length + b.length
  if t = 0 then ⟨1, 1⟩ else ⟨2 * matchSum a b, t⟩

/-! ## String helpers (`str.lower`, `str.strip`, `str.replace`) -/

def isSpaceChar (c : Char) : Bool :=
  c == ' ' || c == '\t' || c == '\n' || c == '\r'

def stripChars (cs : List Char) : List Char :=
  ((cs.dropWhile isSpaceChar).reverse.dropWhile isSpaceChar).reverse

def stripStr (s : String) : String := ⟨stripChars s.data⟩

def lowerStr (s : String) : String := ⟨s.data.map Char.toLower⟩

/-! ## rag.py -/

structure CanonicalFieldDef where
  name : String
  description : String
  synonyms : List String
deriving DecidableEq

def CANONICAL_FIELD_DEFS : List CanonicalFieldDef :=
  [⟨"carrier_name", "Name of the carrier", ["carrier", "vendor", "provider"]⟩,
   ⟨"lane_origin", "Start location of shipment lane",
    ["origin", "from", "origin city", "pol"]⟩,
   ⟨"lane_destination", "End location of shipment lane",
    ["destination", "to", "dest", "pod"]⟩,
   ⟨"equipment_type", "Container or truck type",
    ["equipment", "container type", "truck type"]⟩,
   ⟨"service_level", "Service speed or priority",
    ["service", "priority", "mode"]⟩,
   ⟨"currency", "Rate currency", ["curr", "ccy"]⟩,
   ⟨"rate_value", "Main freight rate", ["rate", "base rate", "price", "amount"]⟩,
   ⟨"surcharge_fuel_pct", "Fuel surcharge percentage",
    ["fuel", "fsc", "fuel surcharge"]⟩,
   ⟨"min_charge", "Minimum charge", ["minimum", "min", "min charge"]⟩,
   ⟨"transit_days", "Transit duration in days", ["transit", "lead time", "days"]⟩,
   ⟨"effective_from", "Validity start date",
    ["effective from", "start date", "valid from"]⟩,
   ⟨"effective_to", "Validity end date",
    ["effective to", "end date", "valid to", "expiry"]⟩,
   ⟨"notes", "Any additional comment", ["remark", "comment", "notes"]⟩]

/-- `max(SequenceMatcher(None, text, synonym).ratio() for synonym in
(field.name, *field.synonyms))`. -/
def bestSynonymScore (text : String) (f : CanonicalFieldDef) : Frac :=
  (f.synonyms.map (fun syn => seqRatio (strCodes text) (strCodes syn))).foldl
    fracMax (seqRatio (strCodes text) (strCodes f.name))

/-- Stable descending insertion by score value: an element goes in front
of the first element whose score is not larger, which is exactly the
order of Python's stable `sort(key=score, reverse=True)`. -/
def insertDesc (x : CanonicalFieldDef × Frac) :
    List (CanonicalFieldDef × Frac) → List (CanonicalFieldDef × Frac)
  | [] => [x]
  | y :: ys => if !fracLt x.2 y.2 then x :: y :: ys else y :: insertDesc x ys

def sortByScoreDesc (l : List (CanonicalFieldDef × Frac)) :
    List (CanonicalFieldDef × Frac) :=
  l.foldr insertDesc []

/-- `retrieve_field_candidates(column_name, top_k)`. -/
def retrieve_field_candidates (column_name : String) (top_k : Nat) :
    List (CanonicalFieldDef × Frac) :=
  let text := stripStr (lowerStr column_name)
  let scored := CANONICAL_FIELD_DEFS.map (fun f => (f, bestSynonymScore text f))
  (sortByScoreDesc scored).take top_k

/-! ## mapping.py -/

/-- `MappingEvidence`; `confidence` is in thousandths (`933` is the
Python float `0.933`), see the header comment. -/
structure MappingEvidence where
  canonical_field : String
  source_column : String
  confidence : Nat
  strategy : String
  rationale : String
deriving DecidableEq

structure MappingResult where
  column_map : List (String × String)
  evidence : List MappingEvidence
deriving DecidableEq

/-- `_score_match(column, canonical)`. -/
def score_match (column canonical : String) : Frac :=
  seqRatio (strCodes (lowerStr column)) (strCodes (lowerStr canonical))

/-- Placeholder only reached if the catalog were empty (it is not): the
Python code indexes `candidates[0]` unconditionally. -/
def defaultFieldDef : CanonicalFieldDef := ⟨"", "", []⟩

/-- The best candidate and its retrieval score for one column
(`candidates[0]` with `top_k=1`). -/
def columnBestPair (column : String) : CanonicalFieldDef × Frac :=
  (retrieve_field_candidates column 1).headD (defaultFieldDef, ⟨0, 1⟩)

/-- `confidence = round(max(rag_score, direct_score), 3)` for one
column, in thousandths. -/
def columnConfidence (column : String) : Nat :=
  roundMille (fracMax (columnBestPair column).2
    (score_match column (columnBestPair column).1.name))

/-- `confidence >= 0.62`, the fixed acceptance threshold of
`build_column_mapping` (`620` thousandths). -/
def colAccepted (column : String) : Bool :=
  decide (620 ≤ columnConfidence column)

/-- The `MappingEvidence` entry recorded for an accepted column. -/
def mkEvidence (column : String) : MappingEvidence :=
  { canonical_field := (columnBestPair column).1.name
    source_column := column
    confidence := columnConfidence column
    strategy := "retrieval+string_similarity"
    rationale := "Matched \x27" ++ column ++ "\x27 to \x27" ++
      (columnBestPair column).1.name ++ "\x27 via synonym retrieval." }

/-- One iteration of the `for column in df.columns` loop of
`build_column_mapping`. -/
def bcmStep (st : List (String × String) × List MappingEvidence)
    (column : String) : List (String × String) × List MappingEvidence :=
  if colAccepted column then
    (dictSet st.1 (columnBestPair column).1.name column,
     st.2 ++ [mkEvidence column])
  else st

/-- `build_column_mapping(df)` (the DataFrame is consulted only for its
column headers). -/
def build_column_mapping (columns : List String) : MappingResult :=
  let st := columns.foldl bcmStep ([], [])
  ⟨st.1, st.2⟩

/-! ## validators.py -/

def REQUIRED_CANONICAL_FIELDS : List String :=
  ["lane_origin", "lane_destination", "rate_value"]

/-- `validate_required_columns(column_map)`. -/
def validate_required_columns (column_map : List (String × String)) :
    List String :=
  (REQUIRED_CANONICAL_FIELDS.filter
      (fun f => (dictGet? column_map f).isNone)).map
    (fun f => "Missing required canonical field mapping: " ++ f)

def isDigitCh (c : Char) : Bool := '0' ≤ c && c ≤ '9'

def digitVal (c : Char) : Nat := c.toNat - 48

def isLeap (y : Nat) : Bool := (y % 4 == 0 && y % 100 != 0) || y % 400 == 0

def daysInMonth (y m : Nat) : Nat :=
  if m = 2 then (if isLeap y then 29 else 28)
  else if m = 4 || m = 6 || m = 9 || m = 11 then 30
  else 31

/-- ISO `YYYY-MM-DD` parsing (the textual date format the repository's
inputs use); pandas turns any other non-empty string into `NaT` under
`errors="coerce"`, which is how every counterexample below is chosen. -/
def parseISODate (s : String) : Option PDate :=
  match stripChars s.data with
  | [y1, y2, y3, y4, '-', m1, m2, '-', d1, d2] =>
      if isDigitCh y1 && isDigitCh y2 && isDigitCh y3 && isDigitCh y4 &&
         isDigitCh m1 && isDigitCh m2 && isDigitCh d1 && isDigitCh d2 then
        let y := ((digitVal y1 * 10 + digitVal y2) * 10 + digitVal y3) * 10 +
          digitVal y4
        let m := digitVal m1 * 10 + digitVal m2
        let d := digitVal d1 * 10 + digitVal d2
        if 1 ≤ m && m ≤ 12 && 1 ≤ d && d ≤ daysInMonth y m then
          some ⟨y, m, d⟩
        else none
      else none
  | _ => none

/-- `to_date_or_none(value)`: `None`/`NaN`/blank strings become `None`;
a parsable string becomes its date; an unparsable non-empty string
becomes `NaT` (`pd.to_datetime(..., errors="coerce")` yields `NaT` and
`NaT.date()` returns `NaT` itself).  A numeric value is a nanosecond
epoch offset; its `.date()` is 1970-01-01 for every sub-day magnitude. -/
def to_date_or_none (value : PyValue) : DateLike :=
  match value with
  | .vNone => .noneD
  | .vNaN => .noneD
  | .vStr s =>
      if stripStr s = "" then .noneD
      else
        match parseISODate s with
        | some d => .dateD d
        | none => .natD
  | .vNum _ _ => .dateD ⟨1970, 1, 1⟩

/-- `hasattr(value, "year")` for the values `to_date_or_none` can
produce: real dates have a `year` attribute, and pandas `NaT` also
exposes a (`nan`-valued) `year` attribute, so this is `true` on every
non-`None` value that ever reaches the check in `enforce_row_quality`. -/
def hasYearAttr : DateLike → Bool
  | .noneD => true
  | .natD => true
  | .dateD _ => true

/-- Python truthiness of a `to_date_or_none` result.  (`NaT` is modelled
as truthy, like its `datetime` superclass; the guarded comparison below
returns `False` for `NaT` either way, so the pipeline's observable
behaviour does not depend on this choice.) -/
def dtTruthy : DateLike → Bool
  | .noneD => false
  | .natD => true
  | .dateD _ => true

/-- `x > y` on `to_date_or_none` results: every comparison involving
`NaT` evaluates to `False` in pandas. -/
def dateGTb : DateLike → DateLike → Bool
  | .dateD a, .dateD b => pdateLtB b a
  | _, _ => false

/-- The working record the pipeline builds for one row: for the string
fields `none` means the key is absent from the Python dict and
`some v` holds the raw source value; the numeric/date fields hold the
coerced values exactly as the pipeline stores them. -/
structure Transformed where
  carrier_name : Option PyValue
  lane_origin : Option PyValue
  lane_destination : Option PyValue
  equipment_type : Option PyValue
  service_level : Option PyValue
  notes : Option PyValue
  currency : PyValue
  rate_value : Option PFloat
  surcharge_fuel_pct : Option PFloat
  min_charge : Option PFloat
  transit_days : Option Int
  effective_from : DateLike
  effective_to : DateLike
deriving DecidableEq

/-- `enforce_row_quality(row)`, returning `(ok, reason)`.  Two notes
that the theorems below depend on: inside the pipeline `rate_value` is
always a float or `None` after `_safe_float`, so `float(row["rate_value"])`
cannot raise and the "rate_value is not numeric" branch is unreachable;
and the date check `not hasattr(row[f], "year")` can never fire because
`to_date_or_none` only produces `None`, dates, or `NaT`, all of which
have a `year` attribute. -/
def enforce_row_quality (row : Transformed) : Bool × Option String :=
  match row.rate_value with
  | none => (false, some "Missing rate_value")
  | some value =>
      if pfNeg value then (false, some "rate_value must be non-negative")
      else if row.effective_from != .noneD && !hasYearAttr row.effective_from then
        (false, some "effective_from is invalid")
      else if row.effective_to != .noneD && !hasYearAttr row.effective_to then
        (false, some "effective_to is invalid")
      else if dtTruthy row.effective_from && dtTruthy row.effective_to &&
          dateGTb row.effective_from row.effective_to then
        (false, some "effective_from is after effective_to")
      else (true, none)

/-! ## schemas.py: `CanonicalRateCardRow.model_validate`

pydantic either returns the validated model or raises `ValidationError`;
this is embedded as a boolean schema check plus a total extraction
function.  Lax-mode rules used: a `str` field accepts exactly `str`
values (no numeric coercion, empty strings allowed — the model declares
no `min_length`); `str | None` also accepts `None`; float bounds
`ge`/`le` fail on `NaN`; a `date | None` field accepts `None`, `date`
objects, and `datetime` instances with zero time — pandas `NaT` is a
`datetime` subclass whose C struct reads 0001-01-01 00:00:00, so it
validates to `date(1, 1, 1)`. -/

structure CanonicalRateCardRow where
  carrier_name : Option String
  lane_origin : String
  lane_destination : String
  equipment_type : Option String
  service_level : Option String
  currency : String
  rate_value : PFloat
  surcharge_fuel_pct : Option PFloat
  min_charge : Option PFloat
  transit_days : Option Int
  effective_from : Option PDate
  effective_to : Option PDate
  notes : Option String
deriving DecidableEq

def validOptStrB : Option PyValue → Bool
  | none => true
  | some .vNone => true
  | some (.vStr _) => true
  | some _ => false

def optStrVal : Option PyValue → Option String
  | some (.vStr s) => some s
  | _ => none

def validReqStrB : Option PyValue → Bool
  | some (.vStr _) => true
  | _ => false

def reqStrVal : Option PyValue → String
  | some (.vStr s) => s
  | _ => ""

def validCurrencyB : PyValue → Bool
  | .vStr _ => true
  | _ => false

def currencyVal : PyValue → String
  | .vStr s => s
  | _ => ""

def validRateB : Option PFloat → Bool
  | none => false
  | some f => pfGe0 f

def validPctB : Option PFloat → Bool
  | none => true
  | some f => pfGe0 f && pfLe100 f

def validMinB : Option PFloat → Bool
  | none => true
  | some f => pfGe0 f

def validTransitB : Option Int → Bool
  | none => true
  | some n => decide (0 ≤ n)

def dateVal : DateLike → Option PDate
  | .noneD => none
  | .natD => some ⟨1, 1, 1⟩
  | .dateD d => some d

def schemaOk (t : Transformed) : Bool :=
  validOptStrB t.carrier_name && validReqStrB t.lane_origin &&
  validReqStrB t.lane_destination && validOptStrB t.equipment_type &&
  validOptStrB t.service_level && validCurrencyB t.currency &&
  validRateB t.rate_value && validPctB t.surcharge_fuel_pct &&
  validMinB t.min_charge && validTransitB t.transit_days &&
  validOptStrB t.notes

def mkRow (t : Transformed) : CanonicalRateCardRow :=
  { carrier_name := optStrVal t.carrier_name
    lane_origin := reqStrVal t.lane_origin
    lane_destination := reqStrVal t.lane_destination
    equipment_type := optStrVal t.equipment_type
    service_level := optStrVal t.service_level
    currency := currencyVal t.currency
    rate_value := t.rate_value.getD (.fin ⟨0, 1⟩)
    surcharge_fuel_pct := t.surcharge_fuel_pct
    min_charge := t.min_charge
    transit_days := t.transit_days
    effective_from := dateVal t.effective_from
    effective_to := dateVal t.effective_to
    notes := optStrVal t.notes }

/-- `CanonicalRateCardRow.model_validate(transformed)`. -/
def model_validate (t : Transformed) : Except String CanonicalRateCardRow :=
  if schemaOk t then .ok (mkRow t) else .error "ValidationError"

/-! ## pipeline.py -/

def OPTIONAL_FLOAT_FIELDS : List String := ["surcharge_fuel_pct", "min_charge"]
def OPTIONAL_INT_FIELDS : List String := ["transit_days"]

def lowerChars (cs : List Char) : List Char := cs.map Char.toLower

/-- Split a character list at the first `e`/`E` (for `float()` exponent
syntax). -/
def splitOnE : List Char → List Char × Option (List Char)
  | [] => ([], none)
  | c :: rest =>
      if c == 'e' || c == 'E' then ([], some rest)
      else
        let p := splitOnE rest
        (c :: p.1, p.2)

/-- Split a character list at the first `.` (for `float()` mantissa
syntax). -/
def splitOnDot : List Char → List Char × Option (List Char)
  | [] => ([], none)
  | c :: rest =>
      if c == '.' then ([], some rest)
      else
        let p := splitOnDot rest
        (c :: p.1, p.2)

def digitsVal (ds : List Char) : Nat :=
  ds.foldl (fun a c => a * 10 + digitVal c) 0

def allDigits (ds : List Char) : Bool := ds.all isDigitCh

/-- Mantissa `digits[.digits]` with at least one digit overall (Python
accepts `"5."` and `".5"`). -/
def parseMantissa (cs : List Char) : Option DecFloat :=
  let p := splitOnDot cs
  let intDs := p.1
  let fracDs := (p.2).getD []
  if allDigits intDs && allDigits fracDs &&
      decide (0 < intDs.length + fracDs.length) &&
      (match p.2 with
       | some post => (splitOnDot post).2.isNone
       | none => true) then
    some ⟨(digitsVal (intDs ++ fracDs) : Int), 10 ^ fracDs.length⟩
  else none

/-- Exponent `[+|-]digits`, nonempty. -/
def parseExponent (cs : List Char) : Option Int :=
  match cs with
  | '+' :: ds =>
      if allDigits ds && decide (0 < ds.length) then some (digitsVal ds)
      else none
  | '-' :: ds =>
      if allDigits ds && decide (0 < ds.length) then
        some (-(digitsVal ds : Int))
      else none
  | ds =>
      if allDigits ds && decide (0 < ds.length) then some (digitsVal ds)
      else none

def applyExponent (f : DecFloat) (e : Int) : DecFloat :=
  if 0 ≤ e then ⟨f.num * ((10 : Nat) ^ e.toNat : Nat), f.den⟩
  else ⟨f.num, f.den * 10 ^ (-e).toNat⟩

def decNegate (f : DecFloat) : DecFloat := ⟨-f.num, f.den⟩

/-- The unsigned part of Python `float(str)`: `inf`/`infinity`/`nan`
keywords (case-insensitive) or decimal/exponent notation.  (Digit-group
underscores are not modelled; no input below uses them.) -/
def parseUnsignedFloat (cs : List Char) (neg : Bool) : Option PFloat :=
  let low := lowerChars cs
  if low = "inf".data || low = "infinity".data then
    some (if neg then .ninf else .inf)
  else if low = "nan".data then some .nan
  else
    let p := splitOnE cs
    match p.2 with
    | none => (parseMantissa p.1).map
        (fun f => .fin (if neg then decNegate f else f))
    | some eds =>
        match parseMantissa p.1, parseExponent eds with
        | some f, some e =>
            some (.fin (if neg then decNegate (applyExponent f e)
              else applyExponent f e))
        | _, _ => none

/-- Python `float(s)` on an already-stripped string, as an option
(`None` for `ValueError`). -/
def pyFloatOfString (s : String) : Option PFloat :=
  match s.data with
  | '+' :: rest => parseUnsignedFloat rest false
  | '-' :: rest => parseUnsignedFloat rest true
  | cs => parseUnsignedFloat cs false

/-- `_safe_float(value)`: `None`/`NaN` become `None`; strings are cleaned
of `%` and `,` (all occurrences) and stripped, empty results become
`None`, unparsable ones are swallowed by the `except` clause; numbers
pass through. -/
def safe_float (value : PyValue) : Option PFloat :=
  match value with
  | .vNone => none
  | .vNaN => none
  | .vStr s =>
      let cleaned := stripStr ⟨s.data.filter (fun c => c != '%' && c != ',')⟩
      if cleaned = "" then none else pyFloatOfString cleaned
  | .vNum n d => some (.fin ⟨n, d⟩)

/-- Truncation toward zero: Python `int(float)` on a finite float. -/
def intTruncDiv (n : Int) (d : Nat) : Int :=
  match n with
  | .ofNat m => .ofNat (m / d)
  | .negSucc m => -(((m + 1) / d : Nat) : Int)

/-- `_safe_int(value)`: `int(number)` is applied outside any
`try`/`except`, so `NaN` raises `ValueError` and infinities raise
`OverflowError`, both of which propagate out of `convert_dataframe`. -/
def safe_int (value : PyValue) : Except String (Option Int) :=
  match safe_float value with
  | none => .ok none
  | some (.fin f) => .ok (some (intTruncDiv f.num f.den))
  | some .nan => .error "ValueError: cannot convert float NaN to integer"
  | some .inf => .error "OverflowError: cannot convert float infinity to integer"
  | some .ninf => .error "OverflowError: cannot convert float infinity to integer"

/-- One input row: a pandas row indexed by column header.  A missing cell
is `NaN` in pandas, hence the `vNaN` default. -/
def rowGet (row : List (String × PyValue)) (c : String) : PyValue :=
  (dictGet? row c).getD .vNaN

/-- The input table: ordered headers plus rows accessible by header. -/
structure DataFrame where
  cols : List String
  rows : List (List (String × PyValue))

/-- The per-row transformation of `convert_dataframe` (building
`transformed` from the column map, then the coercion block).  A canonical
field absent from `column_map` leaves its key unset for the raw string
fields and becomes `None` through `transformed.get(field)` for the
coerced fields, exactly as in the Python dict. -/
def transformRow (column_map : List (String × String))
    (src_row : List (String × PyValue)) : Except String Transformed :=
  let getRaw := fun (f : String) => (dictGet? column_map f).map (rowGet src_row)
  let asVal := fun (o : Option PyValue) => o.getD .vNone
  match safe_int (asVal (getRaw "transit_days")) with
  | .error e => .error e
  | .ok transit =>
      .ok
        { carrier_name := getRaw "carrier_name"
          lane_origin := getRaw "lane_origin"
          lane_destination := getRaw "lane_destination"
          equipment_type := getRaw "equipment_type"
          service_level := getRaw "service_level"
          notes := getRaw "notes"
          currency :=
            let c := asVal (getRaw "currency")
            if pyTruthy c then c else .vStr "USD"
          rate_value := safe_float (asVal (getRaw "rate_value"))
          surcharge_fuel_pct := safe_float (asVal (getRaw "surcharge_fuel_pct"))
          min_charge := safe_float (asVal (getRaw "min_charge"))
          transit_days := transit
          effective_from := to_date_or_none (asVal (getRaw "effective_from"))
          effective_to := to_date_or_none (asVal (getRaw "effective_to")) }

/-- The `for _, src_row in df.iterrows()` loop: accumulates accepted
rows, the rejected-row count and the per-row warnings in row order; the
first exception (from `int()` or `model_validate`) aborts the loop and
propagates. -/
def processRows (cm : List (String × String)) :
    List (List (String × PyValue)) →
      Except String (List CanonicalRateCardRow × Nat × List String)
  | [] => .ok ([], 0, [])
  | r :: rest =>
      match transformRow cm r with
      | .error e => .error e
      | .ok t =>
          match enforce_row_quality t with
          | (true, _) =>
              match model_validate t with
              | .error e => .error e
              | .ok row =>
                  match processRows cm rest with
                  | .error e => .error e
                  | .ok (acc, rej, ws) => .ok (row :: acc, rej, ws)
          | (false, reason) =>
              match processRows cm rest with
              | .error e => .error e
              | .ok (acc, rej, ws) =>
                  .ok (acc, rej + 1, ("Row rejected: " ++ reason.getD "") :: ws)

structure ConversionResponse where
  rows : List CanonicalRateCardRow
  mapping_evidence : List MappingEvidence
  rejected_rows : Nat
  warnings : List String
deriving DecidableEq

/-- `settings.confidence_threshold` (default `0.80`, in thousandths;
the low-confidence reporting threshold, not the 0.62 acceptance
threshold). -/
def confidence_threshold : Nat := 800

def natDigitsStr (n : Nat) : String := toString n

/-- Decimal rendering of the fractional thousandths of a confidence
value, matching Python's shortest float `repr` for exact multiples of
`1/1000`: strip trailing zeros, keep at least one fractional digit. -/
def fracRepr (f : Nat) : String :=
  if f = 0 then "0"
  else
    let padded := (if f < 10 then "00" else if f < 100 then "0" else "") ++
      natDigitsStr f
    ⟨(padded.data.reverse.dropWhile (· == '0')).reverse⟩

def confidenceRepr (m : Nat) : String :=
  natDigitsStr (m / 1000) ++ "." ++ fracRepr (m % 1000)

/-- The trailing `Low-confidence mapping` warnings of
`convert_dataframe` (the `if mapping_result.evidence:` guard is a no-op:
an empty list contributes nothing either way). -/
def lowConfWarnings (evidence : List MappingEvidence) : List String :=
  (evidence.filter (fun ev => decide (ev.confidence < confidence_threshold))).map
    (fun ev => "Low-confidence mapping: " ++ ev.source_column ++ " -> " ++
      ev.canonical_field ++ " (" ++ confidenceRepr ev.confidence ++ ")")

/-- `convert_dataframe(df)`: the whole-table conversion.  Exceptions
raised inside the row loop (pydantic `ValidationError`, `int()`
conversion errors) propagate to the caller as `.error`. -/
def convert_dataframe (df : DataFrame) : Except String ConversionResponse :=
  match processRows (build_column_mapping df.cols).column_map df.rows with
  | .error e => .error e
  | .ok (rows, rejected_rows, rowWarnings) =>
      .ok { rows := rows
            mapping_evidence := (build_column_mapping df.cols).evidence
            rejected_rows := rejected_rows
            warnings := validate_required_columns
                (build_column_mapping df.cols).column_map ++ rowWarnings ++
              lowConfWarnings (build_column_mapping df.cols).evidence }

/-! ## agentic_orchestrator.py and llm_gateway.py -/

structure ImprovementSuggestion where
  issue : String
  action : String
deriving DecidableEq

structure HybridAgentResult where
  initial_mapping : List (String × String)
  improved_mapping : List (String × String)
  suggestions : List ImprovementSuggestion
deriving DecidableEq

/-- The `LLMProvider` protocol: a name and a total
`map_headers(headers, sample_rows)` function (its result stands for the
items of the returned dict, in insertion order). -/
structure LLMProvider where
  provider_name : String
  map_headers : List String → List (List (String × PyValue)) →
    List (String × Option String)

def startsWithL : List Char → List Char → Bool
  | [], _ => true
  | _ :: _, [] => false
  | n :: ns, h :: hs => n == h && startsWithL ns hs

def containsSub (needle : List Char) : List Char → Bool
  | [] => needle.isEmpty
  | c :: rest => startsWithL needle (c :: rest) || containsSub needle rest

/-- `DeterministicFallbackProvider.map_headers` (the `sample_rows`
argument is discarded). -/
def fallbackSuggest (headers : List String) : List (String × Option String) :=
  headers.map (fun header =>
    let h := lowerStr header
    (header,
      if containsSub "origin".data h.data then some "lane_origin"
      else if containsSub "dest".data h.data then some "lane_destination"
      else if containsSub "rate".data h.data || containsSub "price".data h.data
        then some "rate_value"
      else if containsSub "curr".data h.data then some "currency"
      else none))

def DeterministicFallbackProvider : LLMProvider :=
  { provider_name := "deterministic-fallback"
    map_headers := fun headers _ => fallbackSuggest headers }

/-- The `ImprovementSuggestion(issue=..., action=...)` recorded when a
missing required mapping is filled from the provider. -/
def mkSuggestion (pname src target : String) : ImprovementSuggestion :=
  { issue := "Missing required field mapping: " ++ target
    action := "Mapped " ++ src ++ " -> " ++ target ++
      " from provider=" ++ pname }

/-- One iteration of the `for source, target in llm_mapping.items()`
loop of `run_self_improving_mapping_agent`. -/
def agentStep (pname : String)
    (st : List (String × String) × List ImprovementSuggestion)
    (pair : String × Option String) :
    List (String × String) × List ImprovementSuggestion :=
  match pair.2 with
  | some target =>
      if decide (target ∈ REQUIRED_CANONICAL_FIELDS) &&
          (dictGet? st.1 target).isNone then
        (dictSet st.1 target pair.1,
         st.2 ++ [mkSuggestion pname pair.1 target])
      else st
  | none => st

/-- `run_self_improving_mapping_agent(df, provider)`. -/
def run_self_improving_mapping_agent (df : DataFrame)
    (provider : LLMProvider) : HybridAgentResult :=
  let deterministic := build_column_mapping df.cols
  let llm_mapping := provider.map_headers df.cols (df.rows.take 3)
  let st := llm_mapping.foldl (agentStep provider.provider_name)
    (deterministic.column_map, [])
  { initial_mapping := deterministic.column_map
    improved_mapping := st.1
    suggestions := st.2 }

def exceptOk {ε α : Type} : Except ε α → Bool
  | .ok _ => true
  | .error _ => false

/-! ## Concrete inputs used by the theorems below -/

/-- A minimal clean table: every required column maps with confidence
1.0 and the single row is accepted. -/
def exDf5 : DataFrame :=
  { cols := ["Origin", "Destination", "Base Rate"]
    rows := [[("Origin", .vStr "A"), ("Destination", .vStr "B"),
              ("Base Rate", .vStr "100")]] }

/-- The response `convert_dataframe` produces for `exDf5`. -/
def exResp5 : ConversionResponse :=
  { rows := [{ carrier_name := none
               lane_origin := "A"
               lane_destination := "B"
               equipment_type := none
               service_level := none
               currency := "USD"
               rate_value := .fin ⟨100, 1⟩
               surcharge_fuel_pct := none
               min_charge := none
               transit_days := none
               effective_from := none
               effective_to := none
               notes := none }]
    mapping_evidence :=
      [{ canonical_field := "lane_origin"
         source_column := "Origin"
         confidence := 1000
         strategy := "retrieval+string_similarity"
         rationale := "Matched \x27Origin\x27 to \x27lane_origin\x27 via synonym retrieval." },
       { canonical_field := "lane_destination"
         source_column := "Destination"
         confidence := 1000
         strategy := "retrieval+string_similarity"
         rationale := "Matched \x27Destination\x27 to \x27lane_destination\x27 via synonym retrieval." },
       { canonical_field := "rate_value"
         source_column := "Base Rate"
         confidence := 1000
         strategy := "retrieval+string_similarity"
         rationale := "Matched \x27Base Rate\x27 to \x27rate_value\x27 via synonym retrieval." }]
    rejected_rows := 0
    warnings := [] }

/-- A table whose single row has a missing (`NaN`) `Origin` cell but a
valid rate: the row passes every row-quality check and then fails
pydantic validation, so `convert_dataframe` raises. -/
def exDf1 : DataFrame :=
  { cols := ["Origin", "Destination", "Base Rate"]
    rows := [[("Origin", .vNaN), ("Destination", .vStr "LA"),
              ("Base Rate", .vStr "100")]] }

/-- A table whose single row has an empty-string `Origin` cell: pydantic
accepts `""` for the plain `str` field `lane_origin`. -/
def exDf2 : DataFrame :=
  { cols := ["Origin", "Destination", "Base Rate"]
    rows := [[("Origin", .vStr ""), ("Destination", .vStr "B"),
              ("Base Rate", .vStr "100")]] }

/-- A table whose single row has a non-numeric rate. -/
def exDf6 : DataFrame :=
  { cols := ["Origin", "Destination", "Base Rate"]
    rows := [[("Origin", .vStr "A"), ("Destination", .vStr "B"),
              ("Base Rate", .vStr "abc")]] }

/-- A table whose single row has an originally non-empty, unparsable
`Valid From` cell (pandas coerces it to `NaT`). -/
def exDf7 : DataFrame :=
  { cols := ["Origin", "Destination", "Base Rate", "Valid From"]
    rows := [[("Origin", .vStr "A"), ("Destination", .vStr "B"),
              ("Base Rate", .vStr "100"), ("Valid From", .vStr "not-a-date")]] }

/-- The scenario table of the spec: one clean row over seven headers. -/
def c8df : DataFrame :=
  { cols := ["Origin", "Destination", "Base Rate", "Fuel Surcharge %",
             "Valid From", "Valid To", "Transit Days"]
    rows := [[("Origin", .vStr "Shanghai"), ("Destination", .vStr "Rotterdam"),
              ("Base Rate", .vStr "2500"), ("Fuel Surcharge %", .vStr "12%"),
              ("Valid From", .vStr "2025-01-01"), ("Valid To", .vStr "2025-12-31"),
              ("Transit Days", .vStr "28")]] }

/-- The hybrid-agent table: `From City` scores 0.615 < 0.62 for
`lane_origin` and `To Port` tops out at 0.533, so only `rate_value`
(via `Price USD`, 0.714) is mapped deterministically. -/
def exDf9 : DataFrame :=
  { cols := ["From City", "To Port", "Price USD"]
    rows := [[("From City", .vStr "Seoul"), ("To Port", .vStr "Hamburg"),
              ("Price USD", .vStr "1200")]] }

/-- A provider that suggests `From City -> lane_origin`, the suggestion
of the spec's hybrid-agent scenario. -/
def p9 : LLMProvider :=
  { provider_name := "test-provider"
    map_headers := fun _ _ => [("From City", some "lane_origin")] }

/-- Boolean form of "this row cannot crash the pipeline": its
transformation succeeds, and if it passes the row-quality checks it also
satisfies the `CanonicalRateCardRow` schema. -/
def rowConvertibleB (cm : List (String × String))
    (row : List (String × PyValue)) : Bool :=
  match transformRow cm row with
  | .error _ => false
  | .ok t => !(enforce_row_quality t).1 || exceptOk (model_validate t)

/-- `acceptsFor f c`: processing column `c` writes `column_map[f]`
(its best field is `f` and its confidence reaches the 0.62 threshold). -/
def acceptsFor (f c : String) : Bool :=
  colAccepted c && ((columnBestPair c).1.name == f)

/-- A transformed record whose rate is missing and whose other checks
would all fail, used to exhibit the short-circuit of
`enforce_row_quality`. -/
def exT6 : Transformed :=
  { carrier_name := none
    lane_origin := none
    lane_destination := none
    equipment_type := none
    service_level := none
    notes := none
    currency := .vStr "USD"
    rate_value := none
    surcharge_fuel_pct := none
    min_charge := none
    transit_days := none
    effective_from := .dateD ⟨2030, 1, 1⟩
    effective_to := .dateD ⟨2020, 1, 1⟩ }

/-! ## Dictionary lemmas -/

theorem dictGet?_dictSet_self {α : Type} (m : List (String × α)) (k : String)
    (v : α) : dictGet? (dictSet m k v) k = some v := by
  induction m with
  | nil => simp [dictSet, dictGet?]
  | cons p rest ih =>
      obtain ⟨a, b⟩ := p
      by_cases h : a = k
      · subst h; simp [dictSet, dictGet?]
      · simp [dictSet, dictGet?, h, ih]

theorem dictGet?_dictSet_ne {α : Type} (m : List (String × α)) (k k' : String)
    (v : α) (h : k' ≠ k) : dictGet? (dictSet m k v) k' = dictGet? m k' := by
  have hkk : ¬k = k' := fun hh => h hh.symm
  induction m with
  | nil => simp [dictSet, dictGet?, hkk]
  | cons p rest ih =>
      obtain ⟨a, b⟩ := p
      by_cases hak : a = k
      · subst hak
        simp [dictSet, dictGet?, hkk]
      · by_cases hak' : a = k' <;> simp [dictSet, dictGet?, hak, hak', ih, h]

theorem myFindAppend {α : Type} (p : α → Bool) (l1 l2 : List α) :
    (l1 ++ l2).find? p =
      match l1.find? p with
      | some x => some x
      | none => l2.find? p := by
  induction l1 with
  | nil => simp
  | cons a l ih =>
      by_cases h : p a
      · simp [List.find?_cons_of_pos _ h]
      · simp [List.find?_cons_of_neg _ h, ih]

/-! ## Characterisation of `build_column_mapping` -/

theorem bcmStep_map_get (st : List (String × String) × List MappingEvidence)
    (c f : String) :
    dictGet? (bcmStep st c).1 f =
      if acceptsFor f c then some c else dictGet? st.1 f := by
  unfold bcmStep acceptsFor
  by_cases h : colAccepted c
  · simp only [h, if_true, Bool.true_and]
    by_cases hf : (columnBestPair c).1.name = f
    · subst hf; simp [dictGet?_dictSet_self]
    · have hb : ((columnBestPair c).1.name == f) = false := by
        simp [hf]
      simp [hb, dictGet?_dictSet_ne _ _ _ _ (fun hh => hf hh.symm)]
  · simp [h]

theorem bcmStep_evidence (st : List (String × String) × List MappingEvidence)
    (c : String) :
    (bcmStep st c).2 =
      if colAccepted c then st.2 ++ [mkEvidence c] else st.2 := by
  unfold bcmStep
  by_cases h : colAccepted c <;> simp [h]

theorem bcm_foldl_get (cols : List String) :
    ∀ (st : List (String × String) × List MappingEvidence) (f : String),
      dictGet? (cols.foldl bcmStep st).1 f =
        match cols.reverse.find? (fun c => acceptsFor f c) with
        | some c => some c
        | none => dictGet? st.1 f := by
  induction cols with
  | nil => intro st f; simp
  | cons c cs ih =>
      intro st f
      rw [List.foldl_cons, ih, List.reverse_cons, myFindAppend]
      cases hfind : cs.reverse.find? (fun c' => acceptsFor f c') with
      | some x => simp
      | none =>
          rw [bcmStep_map_get]
          by_cases h : acceptsFor f c = true
          · simp [List.find?_cons_of_pos _ h, h]
          · have h' : acceptsFor f c = false := by
              cases hfc : acceptsFor f c
              · rfl
              · exact absurd hfc h
            simp [List.find?_cons_of_neg, h']

theorem bcm_foldl_evidence (cols : List String) :
    ∀ st : List (String × String) × List MappingEvidence,
      (cols.foldl bcmStep st).2 =
        st.2 ++ (cols.filter colAccepted).map mkEvidence := by
  induction cols with
  | nil => intro st; simp
  | cons c cs ih =>
      intro st
      rw [List.foldl_cons, ih, bcmStep_evidence]
      by_cases h : colAccepted c
      · simp [h, List.filter_cons, List.append_assoc]
      · simp [h, List.filter_cons]

theorem build_column_mapping_evidence (cols : List String) :
    (build_column_mapping cols).evidence =
      (cols.filter colAccepted).map mkEvidence := by
  show (cols.foldl bcmStep ([], [])).2 = _
  rw [bcm_foldl_evidence]
  simp

theorem build_map_get (cols : List String) (f : String) :
    dictGet? (build_column_mapping cols).column_map f =
      cols.reverse.find? (fun c => acceptsFor f c) := by
  show dictGet? (cols.foldl bcmStep ([], [])).1 f = _
  rw [bcm_foldl_get]
  cases h : cols.reverse.find? (fun c => acceptsFor f c) <;> simp [dictGet?]

/-- C3: a column of the input contributes a `MappingEvidence` entry if
and only if its confidence `round(max(rag_score, direct_score), 3)`
(which is `columnConfidence`, in thousandths) reaches the 0.62
threshold; an accepted column's best canonical field is a key of
`column_map`; a below-threshold column appears in neither the evidence
nor the values of `column_map` (and `build_column_mapping` emits no
warnings at all — its `MappingResult` has no warning field, so the
mapping stage structurally cannot produce one). -/
theorem c3_threshold_iff (cols : List String) (c : String) (hmem : c ∈ cols) :
    ((∃ ev ∈ (build_column_mapping cols).evidence, ev.source_column = c) ↔
      620 ≤ columnConfidence c)
    ∧ (620 ≤ columnConfidence c →
        (dictGet? (build_column_mapping cols).column_map
          (columnBestPair c).1.name).isSome = true)
    ∧ (columnConfidence c < 620 →
        (∀ ev ∈ (build_column_mapping cols).evidence, ev.source_column ≠ c) ∧
        (∀ f v, dictGet? (build_column_mapping cols).column_map f = some v →
          v ≠ c)) := by
  refine ⟨⟨?_, ?_⟩, ?_, ?_⟩
  · rintro ⟨ev, hev, hsc⟩
    rw [build_column_mapping_evidence] at hev
    obtain ⟨c', hc', hmk⟩ := List.mem_map.mp hev
    have hsc' : c' = c := by rw [← hmk] at hsc; exact hsc
    subst hsc'
    have hacc := (List.mem_filter.mp hc').2
    unfold colAccepted at hacc
    exact of_decide_eq_true hacc
  · intro hconf
    have hacc : colAccepted c = true := by
      unfold colAccepted; exact decide_eq_true hconf
    refine ⟨mkEvidence c, ?_, rfl⟩
    rw [build_column_mapping_evidence]
    exact List.mem_map_of_mem _ (List.mem_filter.mpr ⟨hmem, hacc⟩)
  · intro hconf
    have hacc : acceptsFor (columnBestPair c).1.name c = true := by
      unfold acceptsFor colAccepted
      simp [decide_eq_true hconf]
    rw [build_map_get]
    cases hfind : cols.reverse.find?
        (fun x => acceptsFor (columnBestPair c).1.name x) with
    | some x => rfl
    | none =>
        exfalso
        have hnone := List.find?_eq_none.mp hfind c (List.mem_reverse.mpr hmem)
        simp [hacc] at hnone
  · intro hlt
    constructor
    · intro ev hev hsc
      rw [build_column_mapping_evidence] at hev
      obtain ⟨c', hc', hmk⟩ := List.mem_map.mp hev
      have hsc' : c' = c := by rw [← hmk] at hsc; exact hsc
      subst hsc'
      have hacc := (List.mem_filter.mp hc').2
      unfold colAccepted at hacc
      have := of_decide_eq_true hacc
      omega
    · intro f v hget hvc
      subst hvc
      rw [build_map_get] at hget
      have hp := List.find?_some hget
      unfold acceptsFor at hp
      have hacc : colAccepted v = true := by
        cases hca : colAccepted v
        · rw [hca] at hp; simp at hp
        · rfl
      unfold colAccepted at hacc
      have := of_decide_eq_true hacc
      omega

/-- C3 witness: in the table `["Origin", "xyz123"]`, the column
`Origin` (confidence 1.0) has an evidence entry, and `xyz123`
(confidence 0.333 < 0.62) has none. -/
theorem c3_threshold_iff_witness :
    (∃ ev ∈ (build_column_mapping ["Origin", "xyz123"]).evidence,
        ev.source_column = "Origin")
    ∧ (∀ ev ∈ (build_column_mapping ["Origin", "xyz123"]).evidence,
        ev.source_column ≠ "xyz123") :=
  ⟨(c3_threshold_iff ["Origin", "xyz123"] "Origin" (by decide)).1.mpr (by decide),
   ((c3_threshold_iff ["Origin", "xyz123"] "xyz123" (by decide)).2.2
       (by decide)).1⟩

/-- C4: when the input columns are `xs ++ c2 :: ys` with `c1 ∈ xs`,
both distinct columns `c1` and `c2` best-matching the same canonical
field `f` at or above the 0.62 threshold, and every accepted-for-`f`
column after `c2` being `c2` itself, the final `column_map` assigns `f`
to the later column `c2` — last-writer-wins in column-iteration order. -/
theorem c4_last_writer_wins (f c1 c2 : String) (xs ys : List String)
    (h1 : c1 ∈ xs) (hne : c1 ≠ c2)
    (ha1 : acceptsFor f c1 = true) (ha2 : acceptsFor f c2 = true)
    (hys : ∀ c ∈ ys, acceptsFor f c = true → c = c2) :
    dictGet? (build_column_mapping (xs ++ c2 :: ys)).column_map f = some c2 := by
  rw [build_map_get, List.reverse_append, List.reverse_cons, myFindAppend,
    myFindAppend]
  cases hf : ys.reverse.find? (fun c => acceptsFor f c) with
  | some x =>
      have hx := List.find?_some hf
      have hmx := List.mem_of_find?_eq_some hf
      rw [List.mem_reverse] at hmx
      have hxc : x = c2 := hys x hmx (by simpa using hx)
      subst hxc
      rfl
  | none => simp [List.find?_cons_of_pos _ ha2]

/-- C4 witness: `Origin` and `From` both best-match `lane_origin` with
confidence 1.0, and the later column `From` wins. -/
theorem c4_last_writer_wins_witness :
    dictGet? (build_column_mapping (["Origin"] ++ "From" :: [])).column_map
      "lane_origin" = some "From" :=
  c4_last_writer_wins "lane_origin" "Origin" "From" ["Origin"] []
    (by decide) (by decide) (by decide) (by decide)
    (by intro c hc; cases hc)

/-- C10: `build_column_mapping` appends one evidence entry per accepted
column (the evidence list is exactly the accepted columns in order, even
when a later column overwrites the same canonical field), so on
`["Origin", "From"]` the evidence has two entries while `column_map`
has one, and the first entry's `source_column` (`Origin`) is not what
the final map assigns to its canonical field (`From`). -/
theorem c10_evidence_per_accepted_column :
    (∀ cols : List String,
        (build_column_mapping cols).evidence =
          (cols.filter colAccepted).map mkEvidence)
    ∧ ((build_column_mapping ["Origin", "From"]).evidence.length = 2
        ∧ (build_column_mapping ["Origin", "From"]).column_map.length = 1
        ∧ ∃ ev ∈ (build_column_mapping ["Origin", "From"]).evidence,
            dictGet? (build_column_mapping ["Origin", "From"]).column_map
              ev.canonical_field ≠ some ev.source_column) :=
  ⟨build_column_mapping_evidence, by decide⟩

/-! ## Row-loop lemmas -/

theorem processRows_spec (cm : List (String × String)) :
    ∀ (rs : List (List (String × PyValue)))
      (rows : List CanonicalRateCardRow) (rej : Nat) (ws : List String),
      processRows cm rs = .ok (rows, rej, ws) →
      rej + rows.length = rs.length ∧ ws.length = rej := by
  intro rs
  induction rs with
  | nil =>
      intro rows rej ws h
      simp only [processRows, Except.ok.injEq, Prod.mk.injEq] at h
      obtain ⟨h1, h2, h3⟩ := h
      subst h1; subst h2; subst h3
      simp
  | cons r rest ih =>
      intro rows rej ws h
      simp only [processRows] at h
      cases ht : transformRow cm r with
      | error e => simp [ht] at h
      | ok t =>
          simp only [ht] at h
          cases hq : enforce_row_quality t with
          | mk ok1 reason =>
              simp only [hq] at h
              cases ok1 with
              | true =>
                  cases hv : model_validate t with
                  | error e => simp [hv] at h
                  | ok row =>
                      simp only [hv] at h
                      cases hp : processRows cm rest with
                      | error e => simp [hp] at h
                      | ok out =>
                          obtain ⟨acc, rej', ws'⟩ := out
                          simp only [hp, Except.ok.injEq,
                            Prod.mk.injEq] at h
                          obtain ⟨h1, h2, h3⟩ := h
                          subst h1; subst h2; subst h3
                          obtain ⟨hsum, hws⟩ := ih acc rej' ws' hp
                          constructor
                          · simp [← hsum]; omega
                          · exact hws
              | false =>
                  cases hp : processRows cm rest with
                  | error e => simp [hp] at h
                  | ok out =>
                      obtain ⟨acc, rej', ws'⟩ := out
                      simp only [hp, Except.ok.injEq, Prod.mk.injEq] at h
                      obtain ⟨h1, h2, h3⟩ := h
                      subst h1; subst h2; subst h3
                      obtain ⟨hsum, hws⟩ := ih acc rej' ws' hp
                      constructor
                      · simp [← hsum]; omega
                      · simp [hws]

theorem processRows_rows_validated (cm : List (String × String)) :
    ∀ (rs : List (List (String × PyValue)))
      (rows : List CanonicalRateCardRow) (rej : Nat) (ws : List String),
      processRows cm rs = .ok (rows, rej, ws) →
      ∀ row ∈ rows, ∃ t, model_validate t = .ok row := by
  intro rs
  induction rs with
  | nil =>
      intro rows rej ws h
      simp only [processRows, Except.ok.injEq, Prod.mk.injEq] at h
      obtain ⟨h1, _, _⟩ := h
      subst h1
      intro row hrow
      cases hrow
  | cons r rest ih =>
      intro rows rej ws h
      simp only [processRows] at h
      cases ht : transformRow cm r with
      | error e => simp [ht] at h
      | ok t =>
          simp only [ht] at h
          cases hq : enforce_row_quality t with
          | mk ok1 reason =>
              simp only [hq] at h
              cases ok1 with
              | true =>
                  cases hv : model_validate t with
                  | error e => simp [hv] at h
                  | ok row0 =>
                      simp only [hv] at h
                      cases hp : processRows cm rest with
                      | error e => simp [hp] at h
                      | ok out =>
                          obtain ⟨acc, rej', ws'⟩ := out
                          simp only [hp, Except.ok.injEq, Prod.mk.injEq] at h
                          obtain ⟨h1, _, _⟩ := h
                          subst h1
                          intro row hrow
                          rcases List.mem_cons.mp hrow with hhead | htail
                          · subst hhead; exact ⟨t, hv⟩
                          · exact ih acc rej' ws' hp row htail
              | false =>
                  cases hp : processRows cm rest with
                  | error e => simp [hp] at h
                  | ok out =>
                      obtain ⟨acc, rej', ws'⟩ := out
                      simp only [hp, Except.ok.injEq, Prod.mk.injEq] at h
                      obtain ⟨h1, _, _⟩ := h
                      subst h1
                      exact ih acc rej' ws' hp

theorem model_validate_ok_rate (t : Transformed) (row : CanonicalRateCardRow)
    (h : model_validate t = .ok row) : pfGe0 row.rate_value = true := by
  unfold model_validate at h
  by_cases hs : schemaOk t = true
  · rw [if_pos hs] at h
    simp only [Except.ok.injEq] at h
    subst h
    unfold schemaOk at hs
    simp only [Bool.and_eq_true] at hs
    have hr : validRateB t.rate_value = true := hs.1.1.1.1.2
    cases hrv : t.rate_value with
    | none => rw [hrv] at hr; cases hr
    | some f =>
        rw [hrv] at hr
        have hmk : (mkRow t).rate_value = t.rate_value.getD (.fin ⟨0, 1⟩) := rfl
        rw [hmk, hrv]
        simpa [validRateB] using hr
  · rw [if_neg hs] at h; cases h

theorem processRows_total (cm : List (String × String)) :
    ∀ rs : List (List (String × PyValue)),
      (∀ r ∈ rs, rowConvertibleB cm r = true) →
      ∃ out, processRows cm rs = .ok out := by
  intro rs
  induction rs with
  | nil => intro _; exact ⟨([], 0, []), rfl⟩
  | cons r rest ih =>
      intro hall
      have hr := hall r (List.mem_cons_self r rest)
      obtain ⟨⟨acc, rej, ws⟩, hout⟩ :=
        ih (fun x hx => hall x (List.mem_cons_of_mem r hx))
      unfold rowConvertibleB at hr
      cases ht : transformRow cm r with
      | error e => simp [ht] at hr
      | ok t =>
          simp only [ht] at hr
          cases hq : enforce_row_quality t with
          | mk ok1 reason =>
              cases ok1 with
              | false =>
                  refine ⟨(acc, rej + 1,
                    ("Row rejected: " ++ reason.getD "") :: ws), ?_⟩
                  simp [processRows, ht, hq, hout]
              | true =>
                  simp only [hq] at hr
                  simp at hr
                  cases hv : model_validate t with
                  | error e => simp [hv, exceptOk] at hr
                  | ok row =>
                      refine ⟨(row :: acc, rej, ws), ?_⟩
                      simp [processRows, ht, hq, hv, hout]

/-- The single evaluation of the pipeline on `exDf5`, shared by several
witnesses below. -/
theorem exDf5_eval : convert_dataframe exDf5 = .ok exResp5 := rfl

/-- C5: whenever `convert_dataframe` returns, every input row was either
accepted into `rows` or counted in `rejected_rows` with exactly one
`Row rejected` warning: `rejected_rows + len(rows)` equals the number of
input rows, and the warning list is exactly the missing-required-field
warnings plus one warning per rejected row plus the low-confidence
warnings (the column mapping by itself excludes no row). -/
theorem c5_row_accounting (df : DataFrame) (resp : ConversionResponse)
    (h : convert_dataframe df = .ok resp) :
    resp.rejected_rows + resp.rows.length = df.rows.length ∧
    resp.warnings.length =
      (validate_required_columns
          (build_column_mapping df.cols).column_map).length +
        resp.rejected_rows +
        (lowConfWarnings (build_column_mapping df.cols).evidence).length := by
  unfold convert_dataframe at h
  cases hp : processRows (build_column_mapping df.cols).column_map df.rows with
  | error e => rw [hp] at h; cases h
  | ok out =>
      obtain ⟨rows, rej, ws⟩ := out
      rw [hp] at h
      simp only [Except.ok.injEq] at h
      subst h
      obtain ⟨hsum, hws⟩ := processRows_spec _ _ _ _ _ hp
      refine ⟨hsum, ?_⟩
      simp [List.length_append, hws]
      omega

/-- C5 witness: the clean one-row table `exDf5` converts to `exResp5`
(0 rejected + 1 accepted = 1 input row). -/
theorem c5_row_accounting_witness :
    convert_dataframe exDf5 = .ok exResp5 ∧
      exResp5.rejected_rows + exResp5.rows.length = exDf5.rows.length :=
  ⟨exDf5_eval, (c5_row_accounting exDf5 exResp5 exDf5_eval).1⟩

/-- C2 counterexample: the claim requires `lane_origin` of every
accepted row to be a non-empty string, but on `exDf2` (whose `Origin`
cell is the empty string) `convert_dataframe` accepts the row with
`lane_origin = ""` — pydantic's plain `str` field has no `min_length`. -/
theorem c2_counterexample_empty_origin :
    (convert_dataframe exDf2).map
      (fun r => r.rows.map (fun row => row.lane_origin)) = .ok [""] := rfl

/-- C2 amended: whenever `convert_dataframe` returns, every accepted
row's `rate_value` satisfies `>= 0` (in float semantics: `NaN` and
`-inf` never survive validation); `lane_origin`/`lane_destination` are
strings by construction but may be empty. -/
theorem c2_amended_rate_nonneg (df : DataFrame) (resp : ConversionResponse)
    (h : convert_dataframe df = .ok resp) :
    ∀ row ∈ resp.rows, pfGe0 row.rate_value = true := by
  unfold convert_dataframe at h
  cases hp : processRows (build_column_mapping df.cols).column_map df.rows with
  | error e => rw [hp] at h; cases h
  | ok out =>
      obtain ⟨rows, rej, ws⟩ := out
      rw [hp] at h
      simp only [Except.ok.injEq] at h
      subst h
      intro row hrow
      obtain ⟨t, hv⟩ := processRows_rows_validated _ _ _ _ _ hp row hrow
      exact model_validate_ok_rate t row hv

/-- C2 amended witness. -/
theorem c2_amended_witness :
    convert_dataframe exDf5 = .ok exResp5 ∧
      ∀ row ∈ exResp5.rows, pfGe0 row.rate_value = true :=
  ⟨exDf5_eval, c2_amended_rate_nonneg exDf5 exResp5 exDf5_eval⟩

/-- C1 counterexample: the claim says `convert_dataframe` never raises
for malformed data, but on `exDf1` (missing `Origin` cell, valid rate)
the row passes every row-quality check and `model_validate` raises a
`ValidationError` (`NaN` is not a valid string for `lane_origin`), which
propagates out of `convert_dataframe`. -/
theorem c1_counterexample_schema_crash :
    exceptOk (convert_dataframe exDf1) = false := rfl

/-- C1 amended: `convert_dataframe` returns a complete
`ConversionResult` — absorbing per-row data problems as
`rejected_rows` increments plus warnings — provided every row's
transformation succeeds (no `inf`/`NaN` transit-days float) and every
row that passes the row-quality checks also satisfies the
`CanonicalRateCardRow` schema; a surviving row that violates the schema
makes `model_validate` raise instead. -/
theorem c1_amended_no_raise_under_schema_safety (df : DataFrame)
    (hall : ∀ r ∈ df.rows,
      rowConvertibleB (build_column_mapping df.cols).column_map r = true) :
    ∃ resp, convert_dataframe df = .ok resp := by
  obtain ⟨⟨rows, rej, ws⟩, hout⟩ :=
    processRows_total (build_column_mapping df.cols).column_map df.rows hall
  have hconv : convert_dataframe df =
      .ok { rows := rows
            mapping_evidence := (build_column_mapping df.cols).evidence
            rejected_rows := rej
            warnings := validate_required_columns
                (build_column_mapping df.cols).column_map ++ ws ++
              lowConfWarnings (build_column_mapping df.cols).evidence } := by
    unfold convert_dataframe
    simp only [hout]
  exact ⟨_, hconv⟩

/-- C1 amended witness. -/
theorem c1_amended_witness :
    (∀ r ∈ exDf5.rows,
        rowConvertibleB (build_column_mapping exDf5.cols).column_map r = true)
    ∧ ∃ resp, convert_dataframe exDf5 = .ok resp := by
  have h : ∀ r ∈ exDf5.rows,
      rowConvertibleB (build_column_mapping exDf5.cols).column_map r = true :=
    by decide
  exact ⟨h, c1_amended_no_raise_under_schema_safety exDf5 h⟩

/-- C6 counterexample: on `exDf6` (rate cell `"abc"`) the row is
rejected by the first check, but the warning reads
`"Row rejected: Missing rate_value"` — not the claim's
`"Row rejected: missing/non-numeric rate_value"` (the coerced value is
`None`, so `enforce_row_quality` reports the missing-value reason; its
separate "rate_value is not numeric" reason is unreachable from the
pipeline). -/
theorem c6_counterexample_warning_text :
    (convert_dataframe exDf6).map (fun r => (r.rejected_rows, r.warnings)) =
      .ok (1, ["Row rejected: Missing rate_value"]) := rfl

/-- C6 amended: a row whose coerced `rate_value` is `None` (missing or
non-numeric before coercion) is rejected by the first row-quality check
with reason `"Missing rate_value"`, short-circuiting every later check
(the result is the same whatever the other fields hold). -/
theorem c6_amended_missing_rate_reason (t : Transformed)
    (h : t.rate_value = none) :
    enforce_row_quality t = (false, some "Missing rate_value") := by
  unfold enforce_row_quality
  rw [h]

/-- C6 amended witness: `exT6` additionally has an inverted date range,
which the rejection short-circuits past. -/
theorem c6_amended_witness :
    exT6.rate_value = none ∧
      enforce_row_quality exT6 = (false, some "Missing rate_value") :=
  ⟨rfl, c6_amended_missing_rate_reason exT6 rfl⟩

/-- C7 (code bug): on `exDf7`, whose originally non-empty `Valid From`
cell `"not-a-date"` does not parse, the row is NOT rejected — pandas
coerces the value to `NaT`, which has a `year` attribute, so the
`"effective_from is invalid"` branch never fires — and the bogus value
propagates into the accepted row as the date 0001-01-01 (pydantic reads
`NaT`'s `datetime` struct).  The claim (and the validator's own dead
branch) say the row should be rejected with
`"Row rejected: effective_from is invalid"`. -/
theorem c7_code_bug_invalid_date_not_rejected :
    (convert_dataframe exDf7).map (fun r =>
      (r.rejected_rows, r.warnings,
       r.rows.map (fun row => row.effective_from))) =
      .ok (0, [], [some ⟨1, 1, 1⟩]) := rfl

/-- C8: the spec's scenario table converts to exactly one accepted row
with `lane_origin = "Shanghai"`, `rate_value = 2500.0`,
`surcharge_fuel_pct = 12.0`, `transit_days = 28`, and
`rejected_rows = 0`. -/
theorem c8_scenario_shanghai_rotterdam :
    (convert_dataframe c8df).map (fun r =>
      (r.rows.map (fun row =>
        (row.lane_origin, row.rate_value, row.surcharge_fuel_pct,
         row.transit_days)),
       r.rejected_rows)) =
      .ok ([("Shanghai", .fin ⟨2500, 1⟩, some (.fin ⟨12, 1⟩), some 28)], 0) :=
  rfl


/-! ## Hybrid-agent lemmas -/

theorem strAppendLeftCancel (p a b : String) (h : p ++ a = p ++ b) : a = b := by
  obtain ⟨pl⟩ := p; obtain ⟨al⟩ := a; obtain ⟨bl⟩ := b
  have hd : pl ++ al = pl ++ bl := congrArg String.data h
  exact congrArg String.mk (List.append_cancel_left hd)

/-- The suggestions recorded for a filled `lane_origin` gap. -/
def laneIssueP (s : ImprovementSuggestion) : Bool :=
  s.issue == "Missing required field mapping: lane_origin"

theorem laneIssueP_mkSuggestion (pname src target : String)
    (h : target ≠ "lane_origin") :
    laneIssueP (mkSuggestion pname src target) = false := by
  show ((mkSuggestion pname src target).issue ==
    "Missing required field mapping: lane_origin") = false
  rw [beq_eq_false_iff_ne]
  intro hcontra
  apply h
  have hiss : (mkSuggestion pname src target).issue =
      "Missing required field mapping: " ++ target := rfl
  rw [hiss] at hcontra
  have heq : "Missing required field mapping: " ++ target =
      "Missing required field mapping: " ++ "lane_origin" := by
    rw [hcontra]; rfl
  exact strAppendLeftCancel _ _ _ heq

theorem agentStep_preserve (pname : String)
    (st : List (String × String) × List ImprovementSuggestion)
    (pair : String × Option String) (f v : String)
    (h : dictGet? st.1 f = some v) :
    dictGet? (agentStep pname st pair).1 f = some v := by
  obtain ⟨src, tgt⟩ := pair
  cases tgt with
  | none => exact h
  | some target =>
      show dictGet? (if decide (target ∈ REQUIRED_CANONICAL_FIELDS) &&
        (dictGet? st.1 target).isNone then
          (dictSet st.1 target src, st.2 ++ [mkSuggestion pname src target])
        else st).1 f = some v
      by_cases hc : (decide (target ∈ REQUIRED_CANONICAL_FIELDS) &&
          (dictGet? st.1 target).isNone) = true
      · rw [if_pos hc]
        by_cases htf : target = f
        · subst htf
          rw [h] at hc
          simp at hc
        · show dictGet? (dictSet st.1 target src) f = some v
          rw [dictGet?_dictSet_ne _ _ _ _ (fun hh => htf hh.symm)]
          exact h
      · rw [if_neg hc]
        exact h

theorem agent_foldl_preserve (pname : String) :
    ∀ (l : List (String × Option String))
      (st : List (String × String) × List ImprovementSuggestion) (f v : String),
      dictGet? st.1 f = some v →
      dictGet? (l.foldl (agentStep pname) st).1 f = some v := by
  intro l
  induction l with
  | nil => intro st f v h; exact h
  | cons q rest ih =>
      intro st f v h
      rw [List.foldl_cons]
      exact ih _ f v (agentStep_preserve pname st q f v h)

theorem agent_foldl_keys (pname : String) :
    ∀ (l : List (String × Option String))
      (st : List (String × String) × List ImprovementSuggestion) (f : String),
      (dictGet? (l.foldl (agentStep pname) st).1 f).isSome = true →
      (dictGet? st.1 f).isSome = true ∨ f ∈ REQUIRED_CANONICAL_FIELDS := by
  intro l
  induction l with
  | nil => intro st f h; exact Or.inl h
  | cons q rest ih =>
      intro st f h
      rw [List.foldl_cons] at h
      rcases ih (agentStep pname st q) f h with h' | h'
      · obtain ⟨src, tgt⟩ := q
        cases tgt with
        | none => exact Or.inl h'
        | some target =>
            by_cases hc : (decide (target ∈ REQUIRED_CANONICAL_FIELDS) &&
                (dictGet? st.1 target).isNone) = true
            · have h'' : (dictGet? (dictSet st.1 target src) f).isSome =
                  true := by
                have hs : agentStep pname st (src, some target) =
                    (dictSet st.1 target src,
                     st.2 ++ [mkSuggestion pname src target]) := by
                  show (if decide (target ∈ REQUIRED_CANONICAL_FIELDS) &&
                      (dictGet? st.1 target).isNone then _ else st) = _
                  rw [if_pos hc]
                rw [hs] at h'
                exact h'
              by_cases htf : target = f
              · subst htf
                simp only [Bool.and_eq_true, decide_eq_true_eq] at hc
                exact Or.inr hc.1
              · rw [dictGet?_dictSet_ne _ _ _ _ (fun hh => htf hh.symm)] at h''
                exact Or.inl h''
            · have hs : agentStep pname st (src, some target) = st := by
                show (if decide (target ∈ REQUIRED_CANONICAL_FIELDS) &&
                    (dictGet? st.1 target).isNone then _ else st) = st
                rw [if_neg hc]
              rw [hs] at h'
              exact Or.inl h'
      · exact Or.inr h'

theorem agent_foldl_sugg (pname : String) :
    ∀ (l : List (String × Option String))
      (st : List (String × String) × List ImprovementSuggestion)
      (s : ImprovementSuggestion),
      s ∈ (l.foldl (agentStep pname) st).2 →
      s ∈ st.2 ∨ ∃ src tgt, s.action =
        "Mapped " ++ src ++ " -> " ++ tgt ++ " from provider=" ++ pname := by
  intro l
  induction l with
  | nil => intro st s h; exact Or.inl h
  | cons q rest ih =>
      intro st s h
      rw [List.foldl_cons] at h
      rcases ih _ s h with h' | h'
      · obtain ⟨src, tgt⟩ := q
        cases tgt with
        | none => exact Or.inl h'
        | some target =>
            by_cases hc : (decide (target ∈ REQUIRED_CANONICAL_FIELDS) &&
                (dictGet? st.1 target).isNone) = true
            · have hs : agentStep pname st (src, some target) =
                  (dictSet st.1 target src,
                   st.2 ++ [mkSuggestion pname src target]) := by
                show (if decide (target ∈ REQUIRED_CANONICAL_FIELDS) &&
                    (dictGet? st.1 target).isNone then _ else st) = _
                rw [if_pos hc]
              rw [hs] at h'
              rcases List.mem_append.mp h' with h2 | h2
              · exact Or.inl h2
              · rw [List.mem_singleton] at h2
                subst h2
                exact Or.inr ⟨src, target, rfl⟩
            · have hs : agentStep pname st (src, some target) = st := by
                show (if decide (target ∈ REQUIRED_CANONICAL_FIELDS) &&
                    (dictGet? st.1 target).isNone then _ else st) = st
                rw [if_neg hc]
              rw [hs] at h'
              exact Or.inl h'
      · exact Or.inr h'

theorem agentStep_lane_preserved (pname : String)
    (st : List (String × String) × List ImprovementSuggestion)
    (q : String × Option String)
    (h : (dictGet? st.1 "lane_origin").isSome = true) :
    (dictGet? (agentStep pname st q).1 "lane_origin").isSome = true ∧
    ((agentStep pname st q).2.filter laneIssueP).length =
      (st.2.filter laneIssueP).length := by
  obtain ⟨src, tgt⟩ := q
  cases tgt with
  | none => exact ⟨h, rfl⟩
  | some target =>
      by_cases hc : (decide (target ∈ REQUIRED_CANONICAL_FIELDS) &&
          (dictGet? st.1 target).isNone) = true
      · have hs : agentStep pname st (src, some target) =
            (dictSet st.1 target src,
             st.2 ++ [mkSuggestion pname src target]) := by
          show (if decide (target ∈ REQUIRED_CANONICAL_FIELDS) &&
              (dictGet? st.1 target).isNone then _ else st) = _
          rw [if_pos hc]
        have htl : target ≠ "lane_origin" := by
          intro hcontra
          subst hcontra
          obtain ⟨v, hv⟩ := Option.isSome_iff_exists.mp h
          rw [hv] at hc
          simp at hc
        rw [hs]
        constructor
        · show (dictGet? (dictSet st.1 target src) "lane_origin").isSome = true
          rw [dictGet?_dictSet_ne _ _ _ _ (fun hh => htl hh.symm)]
          exact h
        · show ((st.2 ++ [mkSuggestion pname src target]).filter
              laneIssueP).length = _
          rw [List.filter_append]
          have hone : [mkSuggestion pname src target].filter laneIssueP =
              ([] : List ImprovementSuggestion) := by
            simp [List.filter, laneIssueP_mkSuggestion pname src target htl]
          rw [hone]
          simp
      · have hs : agentStep pname st (src, some target) = st := by
          show (if decide (target ∈ REQUIRED_CANONICAL_FIELDS) &&
              (dictGet? st.1 target).isNone then _ else st) = st
          rw [if_neg hc]
        rw [hs]
        exact ⟨h, rfl⟩

theorem agent_foldl_lane_preserved (pname : String) :
    ∀ (l : List (String × Option String))
      (st : List (String × String) × List ImprovementSuggestion),
      (dictGet? st.1 "lane_origin").isSome = true →
      (dictGet? (l.foldl (agentStep pname) st).1 "lane_origin").isSome = true ∧
      ((l.foldl (agentStep pname) st).2.filter laneIssueP).length =
        (st.2.filter laneIssueP).length := by
  intro l
  induction l with
  | nil => intro st h; exact ⟨h, rfl⟩
  | cons q rest ih =>
      intro st h
      rw [List.foldl_cons]
      obtain ⟨hstep1, hstep2⟩ := agentStep_lane_preserved pname st q h
      obtain ⟨ih1, ih2⟩ := ih _ hstep1
      exact ⟨ih1, by rw [ih2, hstep2]⟩

theorem agent_foldl_lane_filled (pname : String) :
    ∀ (l : List (String × Option String))
      (st : List (String × String) × List ImprovementSuggestion),
      dictGet? st.1 "lane_origin" = none →
      (∃ src, (src, some "lane_origin") ∈ l) →
      (dictGet? (l.foldl (agentStep pname) st).1 "lane_origin").isSome = true ∧
      ((l.foldl (agentStep pname) st).2.filter laneIssueP).length =
        (st.2.filter laneIssueP).length + 1 := by
  intro l
  induction l with
  | nil =>
      intro st _ hmem
      obtain ⟨src, hsrc⟩ := hmem
      cases hsrc
  | cons q rest ih =>
      intro st hnone hmem
      rw [List.foldl_cons]
      obtain ⟨src, tgt⟩ := q
      by_cases htgt : tgt = some "lane_origin"
      · subst htgt
        have hc : (decide ("lane_origin" ∈ REQUIRED_CANONICAL_FIELDS) &&
            (dictGet? st.1 "lane_origin").isNone) = true := by
          rw [hnone]; rfl
        have hs : agentStep pname st (src, some "lane_origin") =
            (dictSet st.1 "lane_origin" src,
             st.2 ++ [mkSuggestion pname src "lane_origin"]) := by
          show (if decide ("lane_origin" ∈ REQUIRED_CANONICAL_FIELDS) &&
              (dictGet? st.1 "lane_origin").isNone then _ else st) = _
          rw [if_pos hc]
        rw [hs]
        have hsome : (dictGet? (dictSet st.1 "lane_origin" src)
            "lane_origin").isSome = true := by
          rw [dictGet?_dictSet_self]; rfl
        obtain ⟨p1, p2⟩ := agent_foldl_lane_preserved pname rest
          (dictSet st.1 "lane_origin" src,
           st.2 ++ [mkSuggestion pname src "lane_origin"]) hsome
        refine ⟨p1, ?_⟩
        rw [p2]
        show ((st.2 ++ [mkSuggestion pname src "lane_origin"]).filter
            laneIssueP).length = _
        rw [List.filter_append]
        have hone : [mkSuggestion pname src "lane_origin"].filter laneIssueP =
            [mkSuggestion pname src "lane_origin"] := by
          simp [List.filter]
          rfl
        rw [hone]
        simp
      · have hnone2 : dictGet? (agentStep pname st (src, tgt)).1
            "lane_origin" = none := by
          cases tgt with
          | none => exact hnone
          | some target =>
              have htl : target ≠ "lane_origin" := by
                intro hcontra
                exact htgt (by rw [hcontra])
              by_cases hc : (decide (target ∈ REQUIRED_CANONICAL_FIELDS) &&
                  (dictGet? st.1 target).isNone) = true
              · have hs : agentStep pname st (src, some target) =
                    (dictSet st.1 target src,
                     st.2 ++ [mkSuggestion pname src target]) := by
                  show (if decide (target ∈ REQUIRED_CANONICAL_FIELDS) &&
                      (dictGet? st.1 target).isNone then _ else st) = _
                  rw [if_pos hc]
                rw [hs]
                show dictGet? (dictSet st.1 target src) "lane_origin" = none
                rw [dictGet?_dictSet_ne _ _ _ _ (fun hh => htl hh.symm)]
                exact hnone
              · have hs : agentStep pname st (src, some target) = st := by
                  show (if decide (target ∈ REQUIRED_CANONICAL_FIELDS) &&
                      (dictGet? st.1 target).isNone then _ else st) = st
                  rw [if_neg hc]
                rw [hs]
                exact hnone
        have hfilter : ((agentStep pname st (src, tgt)).2.filter
            laneIssueP).length = (st.2.filter laneIssueP).length := by
          cases tgt with
          | none => rfl
          | some target =>
              have htl : target ≠ "lane_origin" := by
                intro hcontra
                exact htgt (by rw [hcontra])
              by_cases hc : (decide (target ∈ REQUIRED_CANONICAL_FIELDS) &&
                  (dictGet? st.1 target).isNone) = true
              · have hs : agentStep pname st (src, some target) =
                    (dictSet st.1 target src,
                     st.2 ++ [mkSuggestion pname src target]) := by
                  show (if decide (target ∈ REQUIRED_CANONICAL_FIELDS) &&
                      (dictGet? st.1 target).isNone then _ else st) = _
                  rw [if_pos hc]
                rw [hs]
                show ((st.2 ++ [mkSuggestion pname src target]).filter
                    laneIssueP).length = _
                rw [List.filter_append]
                have hone : [mkSuggestion pname src target].filter laneIssueP =
                    ([] : List ImprovementSuggestion) := by
                  simp [List.filter,
                    laneIssueP_mkSuggestion pname src target htl]
                rw [hone]
                simp
              · have hs : agentStep pname st (src, some target) = st := by
                  show (if decide (target ∈ REQUIRED_CANONICAL_FIELDS) &&
                      (dictGet? st.1 target).isNone then _ else st) = st
                  rw [if_neg hc]
                rw [hs]
        have hmem2 : ∃ src0, (src0, some "lane_origin") ∈ rest := by
          obtain ⟨src0, hsrc0⟩ := hmem
          rcases List.mem_cons.mp hsrc0 with hhead | htail
          · exfalso
            have : tgt = some "lane_origin" :=
              congrArg Prod.snd hhead.symm
            exact htgt this
          · exact ⟨src0, htail⟩
        obtain ⟨r1, r2⟩ := ih _ hnone2 hmem2
        exact ⟨r1, by rw [r2, hfilter]⟩

/-- C9: the hybrid agent never overwrites a deterministic mapping (every
field the deterministic `column_map` assigns keeps its column in
`improved_mapping`); any key it adds is one of the three required
fields; every recorded `ImprovementSuggestion` cites the provider's name
in its action; the agent is a total function of the provider's
suggestion list, so an empty or partial suggestion set cannot crash it;
and when the deterministic mapping lacks `lane_origin` and the provider
suggests a source column for it, `improved_mapping` gains `lane_origin`
and exactly one suggestion for it is recorded. -/
theorem c9_agent_gap_filling (df : DataFrame) (p : LLMProvider) :
    (∀ f v,
        dictGet? (run_self_improving_mapping_agent df p).initial_mapping f =
          some v →
        dictGet? (run_self_improving_mapping_agent df p).improved_mapping f =
          some v)
    ∧ (∀ f,
        (dictGet? (run_self_improving_mapping_agent df p).improved_mapping
            f).isSome = true →
        (dictGet? (run_self_improving_mapping_agent df p).initial_mapping
            f).isSome = true ∨ f ∈ REQUIRED_CANONICAL_FIELDS)
    ∧ (∀ s ∈ (run_self_improving_mapping_agent df p).suggestions,
        ∃ src tgt, s.action = "Mapped " ++ src ++ " -> " ++ tgt ++
          " from provider=" ++ p.provider_name)
    ∧ (dictGet? (run_self_improving_mapping_agent df p).initial_mapping
          "lane_origin" = none →
       (∃ src, (src, some "lane_origin") ∈
          p.map_headers df.cols (df.rows.take 3)) →
       (dictGet? (run_self_improving_mapping_agent df p).improved_mapping
           "lane_origin").isSome = true ∧
       ((run_self_improving_mapping_agent df p).suggestions.filter
           laneIssueP).length = 1) := by
  refine ⟨?_, ?_, ?_, ?_⟩
  · intro f v h
    exact agent_foldl_preserve p.provider_name
      (p.map_headers df.cols (df.rows.take 3))
      ((build_column_mapping df.cols).column_map, []) f v h
  · intro f h
    exact agent_foldl_keys p.provider_name
      (p.map_headers df.cols (df.rows.take 3))
      ((build_column_mapping df.cols).column_map, []) f h
  · intro s hs
    rcases agent_foldl_sugg p.provider_name
        (p.map_headers df.cols (df.rows.take 3))
        ((build_column_mapping df.cols).column_map, []) s hs with h' | h'
    · cases h'
    · exact h'
  · intro hnone hmem
    obtain ⟨r1, r2⟩ := agent_foldl_lane_filled p.provider_name
      (p.map_headers df.cols (df.rows.take 3))
      ((build_column_mapping df.cols).column_map, []) hnone hmem
    exact ⟨r1, by simpa using r2⟩

/-- C9 witness: on `exDf9` the deterministic mapping lacks
`lane_origin`; with the provider `p9` suggesting
`From City -> lane_origin`, the improved mapping gains `lane_origin`
and exactly one suggestion is recorded. -/
theorem c9_agent_gap_filling_witness :
    (dictGet? (run_self_improving_mapping_agent exDf9 p9).improved_mapping
        "lane_origin").isSome = true ∧
      ((run_self_improving_mapping_agent exDf9 p9).suggestions.filter
          laneIssueP).length = 1 :=
  (c9_agent_gap_filling exDf9 p9).2.2.2 (by decide) ⟨"From City", by decide⟩
